import Mathlib

/-!
Verification of the Tempero-Fechamento ingestion & categorization core.

Shallow embedding of the statement-ingestion, normalization and rule-based
categorization engine of `fechamento_tempero.py` (CLI variant) and
`fechamento_tempero_app.py` (upload/app variant).

Modelling conventions:
* Python cell values (`None`, `str`, `int`, `float`, float NaN) are the
  inductive type `Cell`.  Python floats are modelled as exact rationals
  (`Rat`); the two source files only build amounts out of decimal text and
  `+`, `-`, `abs`, so the rational semantics matches the intended decimal
  arithmetic.
* A pandas/csv record (`dict` from trimmed column name to cell) is a `Row`:
  an association list in insertion order with string keys.  (The sources
  skip `not isinstance(k, str)` keys; in the model all keys are strings,
  so that guard is vacuous.)
* `float(s)` can raise `ValueError`; fallible code returns `Option`
  (`none` = a Python exception propagating).  The statement loaders thread
  this through `mapO`, which models a `for` loop that lets exceptions
  escape.
* File/IO reading (`ler_arquivo_tabela`, upload handling) is out of scope;
  the loaders here take the already-materialized list of rows, exactly as
  the per-row loops of the sources consume them.
-/

namespace Tempero

/-- A raw cell value as the Python code sees it: `None`, a string, an int,
a float (modelled as an exact rational), or the float `nan`. -/
inductive Cell where
  | none
  | str (s : String)
  | int (n : Int)
  | num (q : Rat)
  | nan
  deriving DecidableEq

/-- Python truthiness of a cell (`bool(v)`), used by the `or`-chains of the
column-alias lookups: `None`, `""`, `0`, `0.0` are falsy; `nan` is truthy. -/
def Cell.truthy : Cell → Bool
  | Cell.none => false
  | Cell.str s => !(s == "")
  | Cell.int n => !(n == 0)
  | Cell.num q => !(q == 0)
  | Cell.nan => true

/-- Python `a or b` (value semantics: `a` if truthy, else `b`). -/
def pyOr (a b : Cell) : Cell := if a.truthy then a else b

/-- Python `str(v)`.  For a non-integral float Python prints the shortest
round-tripping decimal; that algorithm is not reproduced here (no claim
depends on it), integral floats print as `"x.0"` just as in Python. -/
def Cell.toStr : Cell → String
  | Cell.none => "None"
  | Cell.str s => s
  | Cell.int n => toString n
  | Cell.num q => if q.den == 1 then toString q.num ++ ".0"
                  else toString q.num ++ "/" ++ toString q.den
  | Cell.nan => "nan"

/-- A raw row: insertion-ordered mapping from trimmed column name to cell,
as produced by `ler_arquivo_tabela` / `ler_arquivo_tabela_upload`. -/
abbrev Row := List (String × Cell)

/-- Python `linha.get(k)`: the value under key `k`, or `None` if absent. -/
def getCol (linha : Row) (k : String) : Cell :=
  match linha.find? (fun p => p.1 == k) with
  | some p => p.2
  | Option.none => Cell.none

/-! ## Character-level string primitives

The sources use Python `str.strip`, `str.replace`, `in`, `float()` and
`" | ".join`.  These are modelled structurally on `List Char` so that every
definition is executable by kernel reduction. -/

/-- ASCII whitespace, the repertoire `str.strip()` removes in the data this
program processes. -/
def ehEspaco (c : Char) : Bool :=
  c == ' ' || c == '\t' || c == '\n' || c == '\r'

/-- Python `s.strip()` on the character list. -/
def tiraEspacos (l : List Char) : List Char :=
  ((l.dropWhile ehEspaco).reverse.dropWhile ehEspaco).reverse

/-- Python `s.strip()`. -/
def pyStrip (s : String) : String := String.mk (tiraEspacos s.data)

/-- Is `pat` a prefix of `l`? (Helper for the substring test.) -/
def ehPrefixo : List Char → List Char → Bool
  | [], _ => true
  | _ :: _, [] => false
  | c :: p, d :: l => c == d && ehPrefixo p l

/-- Does `pat` occur as a contiguous sublist of `l`? -/
def ocorreEm (pat : List Char) : List Char → Bool
  | [] => ehPrefixo pat []
  | c :: t => ehPrefixo pat (c :: t) || ocorreEm pat t

/-- Python `pat in s` (substring containment; `"" in s` is `True`). -/
def containsSubstr (s pat : String) : Bool := ocorreEm pat.data s.data

/-- Python `s.replace("R$", "")`: drop every (non-overlapping, left-to-right)
occurrence of the two-character marker `R$`. -/
def removeRS : List Char → List Char
  | 'R' :: '$' :: t => removeRS t
  | c :: t => c :: removeRS t
  | [] => []

/-- Python `s.replace(".", "")` (single-character pattern: a filter). -/
def removePontos (l : List Char) : List Char := l.filter (fun c => !(c == '.'))

/-- Python `s.replace(",", ".")` (single-character pattern: a map). -/
def virgulaParaPonto (l : List Char) : List Char :=
  l.map (fun c => if c == ',' then '.' else c)

/-- Split at every `'.'` (the shape `String.splitOn "."` gives, structurally). -/
def separaNoPonto : List Char → List (List Char)
  | [] => [[]]
  | '.' :: t => [] :: separaNoPonto t
  | c :: t =>
    match separaNoPonto t with
    | [] => [[c]]
    | h :: r => (c :: h) :: r

/-- Decimal value of a digit list (most significant first). -/
def valorDigitos (l : List Char) : Nat :=
  l.foldl (fun a c => a * 10 + (c.toNat - 48)) 0

/-- Model of Python `float(s)` restricted to plain decimal literals: optional
sign, digits with at most one `'.'`, at least one digit; surrounding
whitespace is ignored.  Python additionally accepts exponents, `inf`/`nan`
and `_` separators — forms the two source files never feed it; on
everything else (`float("ABC")`) it raises `ValueError`, modelled as
`none`. -/
def pyFloat (s : String) : Option Rat :=
  let t := tiraEspacos s.data
  let corpo := match t with
    | '-' :: r => r
    | '+' :: r => r
    | r => r
  let negativo : Bool := match t with
    | '-' :: _ => true
    | _ => false
  match separaNoPonto corpo with
  | [i] =>
    if !i.isEmpty && i.all Char.isDigit then
      some (mkRat (if negativo then -(valorDigitos i : Int) else (valorDigitos i : Int)) 1)
    else Option.none
  | [i, f] =>
    if (!i.isEmpty || !f.isEmpty) && i.all Char.isDigit && f.all Char.isDigit then
      let n : Nat := valorDigitos i * 10 ^ f.length + valorDigitos f
      some (mkRat (if negativo then -(n : Int) else (n : Int)) (10 ^ f.length))
    else Option.none
  | _ => Option.none

/-- Model of `parse_numero_br` (identical in both source files): `None`,
`""`, `"-"` and float `nan` give `0.0`; native numbers pass through
`float(x)`; strings lose an `"R$"` marker and surrounding whitespace, and
if a comma is present every `'.'` is removed and the `','` becomes the
decimal point; the final text goes to `float`, whose `ValueError`
propagates (`none`). -/
def parse_numero_br : Cell → Option Rat
  | Cell.none => some 0
  | Cell.int n => some (n : Rat)
  | Cell.num q => some q
  | Cell.nan => some 0
  | Cell.str valor =>
    let s := pyStrip (String.mk (removeRS valor.data))
    if s == "" || s == "-" then some 0
    else
      let s2 := if s.data.contains ',' then
          String.mk (virgulaParaPonto (removePontos s.data))
        else s
      pyFloat s2

/-! ## Text normalization (`normalizar_texto`) -/

/-- Model of Python `str.upper()` restricted to the ASCII letters and the
lowercase Portuguese accented characters this program's data contains;
every other character is left unchanged (a narrowing of full-Unicode
`upper` that no claim depends on). -/
def maiusculas : List (Char × Char) :=
  [('a', 'A'), ('b', 'B'), ('c', 'C'), ('d', 'D'), ('e', 'E'), ('f', 'F'),
   ('g', 'G'), ('h', 'H'), ('i', 'I'), ('j', 'J'), ('k', 'K'), ('l', 'L'),
   ('m', 'M'), ('n', 'N'), ('o', 'O'), ('p', 'P'), ('q', 'Q'), ('r', 'R'),
   ('s', 'S'), ('t', 'T'), ('u', 'U'), ('v', 'V'), ('w', 'W'), ('x', 'X'),
   ('y', 'Y'), ('z', 'Z'),
   ('á', 'Á'), ('à', 'À'), ('ã', 'Ã'), ('â', 'Â'),
   ('é', 'É'), ('ê', 'Ê'), ('í', 'Í'),
   ('ó', 'Ó'), ('ô', 'Ô'), ('õ', 'Õ'),
   ('ú', 'Ú'), ('ç', 'Ç')]

/-- The `substituicoes` table of the source: uppercase accented characters
folded to their base letter, applied after upcasing. -/
def substituicoes : List (Char × Char) :=
  [('Ó', 'O'), ('Ô', 'O'), ('Õ', 'O'),
   ('Í', 'I'),
   ('Á', 'A'), ('À', 'A'), ('Ã', 'A'),
   ('É', 'E'), ('Ê', 'E'),
   ('Ú', 'U'),
   ('Ç', 'C')]

/-- Look a character up in a replacement table; characters not in the table
are unchanged. -/
def trocaChar (tbl : List (Char × Char)) (c : Char) : Char :=
  match tbl.find? (fun p => p.1 == c) with
  | some p => p.2
  | Option.none => c

/-- One character of `normalizar_texto`: upcase, then fold accents.  The
source upcases the whole string and then runs the single-character
`str.replace` substitutions in sequence; since every pattern and
replacement is one character and no replacement re-creates a later
pattern, that equals this per-character map. -/
def normChar (c : Char) : Char := trocaChar substituicoes (trocaChar maiusculas c)

/-- Text canonicalization on a string value. -/
def normStr (s : String) : String := String.mk (s.data.map normChar)

/-- Model of `normalizar_texto` (identical in both source files): `None`
becomes `""`; any other value is `str`-ed, upcased and accent-folded. -/
def normalizar_texto : Cell → String
  | Cell.none => ""
  | c => normStr c.toStr

/-! ## Description synthesis (`extrair_descricao_linha`) -/

/-- The fixed `candidatos_ignorados` list: exact (whole-name) matches that
Pass 2 of the description synthesizer refuses to copy into the
description. -/
def candidatos_ignorados : List String :=
  ["DATA", "VALOR", "VALORES",
   "DEBITO", "DEBITO(-)", "DEBITO (+)", "DEBITO (-)",
   "CREDITO", "CREDITO(+)", "CREDITO (+)", "CREDITO (-)",
   "ENTRADA", "ENTRADAS", "SAIDA", "SAIDAS", "SALDO"]

/-- Pass 1 of the synthesizer: collect, in column order, the trimmed string
value of every column whose normalized name contains `HIST` or `DESCR`
(skipping `None` cells and empty trimmed values). -/
def passo1 (linha : Row) : List String :=
  linha.foldl (fun partes kv =>
    if kv.2 == Cell.none then partes
    else
      let kl := normStr (pyStrip kv.1)
      let vs := pyStrip kv.2.toStr
      if vs == "" then partes
      else if containsSubstr kl "HIST" || containsSubstr kl "DESCR" then partes ++ [vs]
      else partes) []

/-- Pass 2 of the synthesizer: append the trimmed string value of every
remaining column whose normalized name is not (exactly) in
`candidatos_ignorados`, de-duplicating against what was collected so
far. -/
def passo2 (linha : Row) (partes0 : List String) : List String :=
  linha.foldl (fun partes kv =>
    if kv.2 == Cell.none then partes
    else
      let kl := normStr (pyStrip kv.1)
      let vs := pyStrip kv.2.toStr
      if vs == "" then partes
      else if candidatos_ignorados.contains kl then partes
      else if partes.contains vs then partes
      else partes ++ [vs]) partes0

/-- Python `sep.join(partes)`. -/
def juntar (sep : String) : List String → String
  | [] => ""
  | [x] => x
  | x :: xs => x ++ sep ++ juntar sep xs

/-- Model of `extrair_descricao_linha` (identical in both source files): a
non-`None`, non-`""` value under the literal key `descricao` is returned
verbatim; otherwise the two collection passes run and the fragments are
joined with `" | "`; `None` when nothing was collected. -/
def extrair_descricao_linha (linha : Row) : Cell :=
  match linha.find? (fun p => p.1 == "descricao") with
  | some p =>
    if !(p.2 == Cell.none) && !(p.2 == Cell.str "") then p.2
    else
      let partes := passo2 linha (passo1 linha)
      if partes.isEmpty then Cell.none else Cell.str (juntar " | " partes)
  | Option.none =>
    let partes := passo2 linha (passo1 linha)
    if partes.isEmpty then Cell.none else Cell.str (juntar " | " partes)

/-! ## Computable rational operations

The Python code adds, subtracts, negates and takes `abs` of floats; under
the floats-as-rationals convention these are the exact rational
operations.  They are written through `mkRat` (instead of the library's
irreducible `+`, `-`, `abs`) so that concrete runs of the loaders evaluate
by kernel reduction; the bridge lemmas right below prove them equal to the
standard operations, and all theorems are stated with the standard ones. -/

/-- Exact rational addition, computably. -/
def rAdd (a b : Rat) : Rat := mkRat (a.num * b.den + b.num * a.den) (a.den * b.den)

/-- Exact rational subtraction, computably. -/
def rSub (a b : Rat) : Rat := mkRat (a.num * b.den - b.num * a.den) (a.den * b.den)

/-- Exact rational negation, computably. -/
def rNeg (a : Rat) : Rat := mkRat (-a.num) a.den

/-- Exact rational absolute value, computably. -/
def rAbs (a : Rat) : Rat := mkRat (a.num.natAbs : Int) a.den

theorem rAdd_eq_add (a b : Rat) : rAdd a b = a + b := by
  rw [rAdd, Rat.add_def, Rat.normalize_eq_mkRat, Rat.mkRat_eq_div]

theorem den_cast_ne_zero (a : Rat) : ((a.den : Rat)) ≠ 0 := by
  exact_mod_cast a.den_nz

theorem rNeg_eq_neg (a : Rat) : rNeg a = -a := by
  rw [rNeg, Rat.mkRat_eq_div]
  push_cast
  rw [neg_div, Rat.num_div_den]

theorem rSub_eq_sub (a b : Rat) : rSub a b = a - b := by
  rw [rSub, Rat.mkRat_eq_div]
  push_cast
  conv_rhs => rw [← Rat.num_div_den a, ← Rat.num_div_den b]
  rw [div_sub_div _ _ (den_cast_ne_zero a) (den_cast_ne_zero b)]
  ring_nf

theorem rAbs_eq_abs (a : Rat) : rAbs a = |a| := by
  rw [rAbs, Rat.mkRat_eq_div]
  push_cast [Int.cast_natAbs, Int.cast_abs]
  conv_rhs => rw [← Rat.num_div_den a]
  rw [abs_div, abs_of_pos (show (0 : Rat) < (a.den : Rat) by exact_mod_cast a.den_pos)]

/-- Sum of a list of rationals, computably (the loaders' running totals
accumulate exactly these summands in row order). -/
def somaLista : List Rat → Rat
  | [] => 0
  | x :: t => rAdd x (somaLista t)

theorem somaLista_eq_sum (l : List Rat) : somaLista l = l.sum := by
  induction l with
  | nil => rfl
  | cons x t ih => rw [somaLista, rAdd_eq_add, ih, List.sum_cons]

/-! ## Statement loaders (adapters) -/

/-- A canonical transaction record (`movimento`). -/
structure Mov where
  data : Cell
  descricao : Cell
  valor : Rat
  conta : String
  deriving DecidableEq

/-- The unified value column of the bank adapter: aliases `Valor`, `VALOR`,
`valor`, `Valor (R$)` tried in order through Python `or`, defaulting to
the literal `0`. -/
def valorUnificado (linha : Row) : Cell :=
  pyOr (getCol linha "Valor") (pyOr (getCol linha "VALOR")
    (pyOr (getCol linha "valor") (pyOr (getCol linha "Valor (R$)") (Cell.int 0))))

/-- The date column: aliases `Data`, `DATA`, `data` tried in order. -/
def dataCol (linha : Row) : Cell :=
  pyOr (getCol linha "Data") (pyOr (getCol linha "DATA") (getCol linha "data"))

/-- The debit/credit fallback scan of the CLI bank adapter: walk the row in
column order, (re)assigning `debito` from any column whose normalized name
contains `DEBITO` (the source's extra `DEBITO(-)` / `DEBITO (+)`
disjuncts are subsumed but kept) and `credito` likewise for `CREDITO`;
each hit re-parses the cell, so a `ValueError` escapes (`none`). -/
def scanDebCredItau (linha : Row) : Option (Rat × Rat) :=
  linha.foldlM (fun dc kv => do
    let kl := normStr (pyStrip kv.1)
    let d ← if containsSubstr kl "DEBITO" || containsSubstr kl "DEBITO(-)"
               || containsSubstr kl "DEBITO (+)" then parse_numero_br kv.2
            else some dc.1
    let c ← if containsSubstr kl "CREDITO" || containsSubstr kl "CREDITO(+)"
               || containsSubstr kl "CREDITO (+)" then parse_numero_br kv.2
            else some dc.2
    some (d, c)) ((0 : Rat), (0 : Rat))

/-- The debit/credit fallback scan of the upload bank adapter (plain
`DEBITO` / `CREDITO` substring tests). -/
def scanDebCredUpload (linha : Row) : Option (Rat × Rat) :=
  linha.foldlM (fun dc kv => do
    let kl := normStr (pyStrip kv.1)
    let d ← if containsSubstr kl "DEBITO" then parse_numero_br kv.2 else some dc.1
    let c ← if containsSubstr kl "CREDITO" then parse_numero_br kv.2 else some dc.2
    some (d, c)) ((0 : Rat), (0 : Rat))

/-- One iteration of the `carregar_extrato_itau` loop: parse the unified
value column; if (and only if) that is exactly `0.0`, run the
debit/credit scan and, when at least one of the two is nonzero, the
amount becomes `credito - debito`. -/
def itauRow (linha : Row) : Option Mov := do
  let v0 ← parse_numero_br (valorUnificado linha)
  let valor ←
    if v0 == 0 then do
      let dc ← scanDebCredItau linha
      pure (if dc.1 != 0 || dc.2 != 0 then rSub dc.2 dc.1 else v0)
    else pure v0
  pure { data := dataCol linha, descricao := extrair_descricao_linha linha,
         valor := valor, conta := "Itau" }

/-- Model of a Python `for` loop over rows in which an exception escaping
one iteration aborts the whole call (`none`). -/
def mapO {α β : Type} (f : α → Option β) : List α → Option (List β)
  | [] => some []
  | a :: t =>
    match f a with
    | Option.none => Option.none
    | some b =>
      match mapO f t with
      | Option.none => Option.none
      | some bs => some (b :: bs)

/-- Running entries total of a list of emitted movements: the loop adds
`valor` when `valor > 0`; summed in row order. -/
def entradasDe (movs : List Mov) : Rat :=
  somaLista (movs.map fun m => if 0 < m.valor then m.valor else 0)

/-- Running exits total of a list of emitted movements: the loop adds
`valor` when `valor < 0`; summed in row order. -/
def saidasDe (movs : List Mov) : Rat :=
  somaLista (movs.map fun m => if m.valor < 0 then m.valor else 0)

/-- Model of `carregar_extrato_itau` (CLI file, rows already read): returns
`(entradas, saidas, resultado = entradas + saidas, movimentos)`.  Note
this variant has no balance-row filtering. -/
def carregar_extrato_itau (linhas : List Row) : Option (Rat × Rat × Rat × List Mov) := do
  let movs ← mapO itauRow linhas
  pure (entradasDe movs, saidasDe movs, rAdd (entradasDe movs) (saidasDe movs), movs)

/-- The balance-snapshot markers the upload bank adapter skips (the
accented variant is kept from the source even though it can never occur
in normalized text). -/
def marcadorSaldoItau (d : String) : Bool :=
  containsSubstr d "SALDO ANTERIOR" || containsSubstr d "SALDO TOTAL DISPONIVEL DIA"
    || containsSubstr d "SALDO TOTAL DISPONÍVEL DIA" || containsSubstr d "SALDO DO DIA"

/-- One iteration of the `carregar_extrato_itau_upload` loop: `some none`
means the row was skipped (`continue`), before any amount is parsed. -/
def itauUploadRow (linha : Row) : Option (Option Mov) :=
  let descricao := extrair_descricao_linha linha
  let desc_norm := normalizar_texto descricao
  if marcadorSaldoItau desc_norm then some Option.none
  else do
    let v0 ← parse_numero_br (valorUnificado linha)
    let valor ←
      if v0 == 0 then do
        let dc ← scanDebCredUpload linha
        pure (if dc.1 != 0 || dc.2 != 0 then rSub dc.2 dc.1 else v0)
      else pure v0
    pure (some { data := dataCol linha, descricao := descricao,
                 valor := valor, conta := "Itau" })

/-- Model of `carregar_extrato_itau_upload` (app file, rows already read):
skips balance-snapshot rows, otherwise as the CLI variant. -/
def carregar_extrato_itau_upload (linhas : List Row) :
    Option (Rat × Rat × Rat × List Mov) := do
  let rows ← mapO itauUploadRow linhas
  let movs := rows.reduceOption
  pure (entradasDe movs, saidasDe movs, rAdd (entradasDe movs) (saidasDe movs), movs)

/-- The entries magnitude column of the payment-processor adapter:
aliases `Entradas`, `ENTRADAS`, `entradas`. -/
def entradaCelula (linha : Row) : Cell :=
  pyOr (getCol linha "Entradas") (pyOr (getCol linha "ENTRADAS")
    (pyOr (getCol linha "entradas") (Cell.int 0)))

/-- The exits magnitude column of the payment-processor adapter: aliases
`Saidas`, `SAIDAS`, `Saídas`, `saídas`. -/
def saidaCelula (linha : Row) : Cell :=
  pyOr (getCol linha "Saidas") (pyOr (getCol linha "SAIDAS")
    (pyOr (getCol linha "Saídas") (pyOr (getCol linha "saídas") (Cell.int 0))))

/-- One iteration of the `carregar_extrato_pagseguro` loop.  The result
carries, besides the movement, the row's contribution `ent` to the
running entries total and `sai` to the (negated) running exits total:
`valor` starts at `0.0`, gains `abs(entrada)` when `entrada != 0` and
loses `abs(saida)` when `saida != 0` — that is, `valor = ent - sai`. -/
def pagRow (linha : Row) : Option (Rat × Rat × Mov) := do
  let entrada ← parse_numero_br (entradaCelula linha)
  let saida ← parse_numero_br (saidaCelula linha)
  let ent := if entrada != 0 then rAbs entrada else 0
  let sai := if saida != 0 then rAbs saida else 0
  pure (ent, sai, { data := dataCol linha, descricao := extrair_descricao_linha linha,
                    valor := rSub ent sai, conta := "PagSeguro" })

/-- Model of `carregar_extrato_pagseguro` (CLI file, rows already read):
`entradas` accumulates `+abs(entrada)`, `saidas` accumulates
`-abs(saida)`, `resultado = entradas + saidas`.  No row is skipped. -/
def carregar_extrato_pagseguro (linhas : List Row) :
    Option (Rat × Rat × Rat × List Mov) := do
  let rows ← mapO pagRow linhas
  let entradas := somaLista (rows.map fun t => t.1)
  let saidas := somaLista (rows.map fun t => rNeg t.2.1)
  pure (entradas, saidas, rAdd entradas saidas, rows.map fun t => t.2.2)

/-- One iteration of the `carregar_extrato_pagseguro_upload` loop:
`some none` means the row was skipped because its normalized description
contains `SALDO DO DIA` or `SALDO DIA`. -/
def pagUploadRow (linha : Row) : Option (Option (Rat × Rat × Mov)) :=
  let descricao := extrair_descricao_linha linha
  let desc_norm := normalizar_texto descricao
  if containsSubstr desc_norm "SALDO DO DIA" || containsSubstr desc_norm "SALDO DIA" then
    some Option.none
  else do
    let entrada ← parse_numero_br (entradaCelula linha)
    let saida ← parse_numero_br (saidaCelula linha)
    let ent := if entrada != 0 then rAbs entrada else 0
    let sai := if saida != 0 then rAbs saida else 0
    pure (some (ent, sai, { data := dataCol linha, descricao := descricao,
                            valor := rSub ent sai, conta := "PagSeguro" }))

/-- Model of `carregar_extrato_pagseguro_upload` (app file, rows already
read): as the CLI variant plus the balance-of-day row skip. -/
def carregar_extrato_pagseguro_upload (linhas : List Row) :
    Option (Rat × Rat × Rat × List Mov) := do
  let rowsO ← mapO pagUploadRow linhas
  let rows := rowsO.reduceOption
  let entradas := somaLista (rows.map fun t => t.1)
  let saidas := somaLista (rows.map fun t => rNeg t.2.1)
  pure (entradas, saidas, rAdd entradas saidas, rows.map fun t => t.2.2)

/-! ## Categorization engine (`classificar_categoria`)

The app variant consults the learned-rule table `REGRAS_CATEGORIA` first
(a Python `dict`, i.e. an insertion-ordered association list here, passed
explicitly instead of read from the module-level global); then both
variants run the same hardcoded first-match-wins keyword chain, ending in
the sign-based default. -/

/-- The hardcoded keyword chain shared by both source files (the CLI file
additionally tests `VERÔNICA` in the payroll rule; `cliExtra` keeps that
difference).  Returns `none` when no keyword rule fires. -/
def heuristicas (cliExtra : Bool) (d : String) : Option String :=
  if containsSubstr d "ANTINSECT" then some "Dedetização / Controle de Pragas"
  else if containsSubstr d "CIA ESTADUAL DE DIST" || containsSubstr d "CEEE"
      || containsSubstr d "ENERGIA ELETRICA" then some "Energia Elétrica"
  else if containsSubstr d "RECH CONTABILIDADE" || containsSubstr d "RECH CONT" then
    some "Contabilidade e RH"
  else if containsSubstr d "BUSINESS      0503-2852" || containsSubstr d "BUSINESS 0503-2852"
      || containsSubstr d "ITAU UNIBANCO HOLDING S.A." || containsSubstr d "CARTAO"
      || containsSubstr d "CARTÃO" then some "Fatura Cartão"
  else if containsSubstr d "APLICACAO" || containsSubstr d "APLICAÇÃO"
      || containsSubstr d "CDB" || containsSubstr d "CREDBANCRF" then
    some "Investimentos (Aplicações)"
  else if containsSubstr d "REND PAGO APLIC" || containsSubstr d "RENDIMENTO APLIC"
      || containsSubstr d "REND APLIC" || containsSubstr d "RENDIMENTO" then
    some "Rendimentos de Aplicações"
  else if containsSubstr d "ZOOP" || containsSubstr d "ALUGUEL" then some "Aluguel Comercial"
  else if containsSubstr d "MOTOBOY" || containsSubstr d "ENTREGA" then some "Motoboy / Entregas"
  else if containsSubstr d "CAROLINE" || containsSubstr d "VERONICA"
      || containsSubstr d "VERONICA DA SILVA CARDOSO"
      || (cliExtra && containsSubstr d "VERÔNICA")
      || containsSubstr d "EVELLYN" || containsSubstr d "SALARIO"
      || containsSubstr d "SALÁRIO" || containsSubstr d "FOLHA" then
    some "Folha de Pagamento"
  else if containsSubstr d "ANA PAULA" || containsSubstr d "NUTRICIONISTA" then
    some "Nutricionista"
  else if containsSubstr d "DARF" || containsSubstr d "GPS" || containsSubstr d "FGTS"
      || containsSubstr d "INSS" || containsSubstr d "SIMPLES NACIONAL"
      || containsSubstr d "IMPOSTO" then some "Impostos e Encargos"
  else if (containsSubstr d "TRANSFERENCIA" || containsSubstr d "TRANSFERÊNCIA"
      || containsSubstr d "PIX")
      && (containsSubstr d "RICARDO" || containsSubstr d "LIZIANI"
      || containsSubstr d "LIZI") then some "Transferência Interna / Sócios"
  else Option.none

/-- The sign-based default tail of both classifiers. -/
def categoriaPadrao (valor : Rat) : String :=
  if 0 < valor then "Vendas / Receitas"
  else if valor < 0 then "Fornecedores e Insumos"
  else "A Classificar"

/-- Model of the app file's `classificar_categoria`: the learned-rule table
(first substring match in insertion order wins; the source's
`if REGRAS_CATEGORIA:` guard is the `isEmpty` test) before the hardcoded
chain, then the sign default. -/
def classificar_categoria (regras : List (String × String)) (mov : Mov) : String :=
  let desc_norm := normalizar_texto mov.descricao
  match (if regras.isEmpty then Option.none
         else regras.find? fun p => containsSubstr desc_norm p.1) with
  | some p => p.2
  | Option.none =>
    match heuristicas false desc_norm with
    | some cat => cat
    | Option.none => categoriaPadrao mov.valor

/-- Model of the CLI file's `classificar_categoria`: no rule table; the
hardcoded chain (with the extra `VERÔNICA` payroll keyword) then the
sign default. -/
def classificar_categoria_cli (mov : Mov) : String :=
  let desc_norm := normalizar_texto mov.descricao
  match heuristicas true desc_norm with
  | some cat => cat
  | Option.none => categoriaPadrao mov.valor

/-! ## Shared helper lemmas -/

theorem trocaChar_not_mem (tbl : List (Char × Char)) (c : Char)
    (h : c ∉ tbl.map Prod.fst) : trocaChar tbl c = c := by
  rw [trocaChar, List.find?_eq_none.mpr]
  intro p hp
  simp only [beq_iff_eq]
  intro hpc
  exact h (List.mem_map.mpr ⟨p, hp, hpc⟩)

theorem normChar_idem (c : Char) : normChar (normChar c) = normChar c := by
  by_cases hu : c ∈ maiusculas.map Prod.fst
  · fin_cases hu <;> decide
  · have h1 : trocaChar maiusculas c = c := trocaChar_not_mem _ _ hu
    by_cases hs : c ∈ substituicoes.map Prod.fst
    · fin_cases hs <;> decide
    · have h2 : trocaChar substituicoes c = c := trocaChar_not_mem _ _ hs
      have hnc : normChar c = c := by rw [normChar, h1, h2]
      rw [hnc]
      exact hnc

theorem normStr_idem (s : String) : normStr (normStr s) = normStr s := by
  simp only [normStr]
  rw [List.map_map]
  exact congrArg String.mk (List.map_congr_left fun a _ => normChar_idem a)

theorem mapO_eq_none_of_mem {α β : Type} (f : α → Option β) (l : List α)
    (h : ∃ a ∈ l, f a = Option.none) : mapO f l = Option.none := by
  induction l with
  | nil => simp at h
  | cons a t ih =>
    obtain ⟨x, hx, hfx⟩ := h
    rcases List.mem_cons.mp hx with rfl | hxt
    · rw [mapO, hfx]
    · rw [mapO]
      cases hfa : f a with
      | none => rfl
      | some b => rw [ih ⟨x, hxt, hfx⟩]

theorem mapO_mem {α β : Type} (f : α → Option β) :
    ∀ (l : List α) (ys : List β), mapO f l = some ys →
      ∀ y ∈ ys, ∃ x ∈ l, f x = some y := by
  intro l
  induction l with
  | nil =>
    intro ys h y hy
    rw [mapO] at h
    cases h
    simp at hy
  | cons a t ih =>
    intro ys h y hy
    rw [mapO] at h
    cases hfa : f a with
    | none => rw [hfa] at h; cases h
    | some b =>
      rw [hfa] at h
      cases hmt : mapO f t with
      | none => rw [hmt] at h; cases h
      | some bs =>
        rw [hmt] at h
        cases h
        rcases List.mem_cons.mp hy with rfl | hyt
        · exact ⟨a, List.mem_cons_self a t, hfa⟩
        · obtain ⟨x, hx, hfx⟩ := ih bs hmt y hyt
          exact ⟨x, List.mem_cons_of_mem a hx, hfx⟩

theorem somaLista_nonneg (l : List Rat) (h : ∀ x ∈ l, 0 ≤ x) : 0 ≤ somaLista l := by
  rw [somaLista_eq_sum]
  exact List.sum_nonneg h

theorem somaLista_nonpos (l : List Rat) (h : ∀ x ∈ l, x ≤ 0) : somaLista l ≤ 0 := by
  induction l with
  | nil => rw [somaLista]
  | cons x t ih =>
    rw [somaLista, rAdd_eq_add]
    have hx := h x (List.mem_cons_self x t)
    have ht := ih fun y hy => h y (List.mem_cons_of_mem x hy)
    linarith

theorem somaLista_map_add {α : Type} (f g : α → Rat) (l : List α) :
    somaLista (l.map f) + somaLista (l.map g) = somaLista (l.map fun x => f x + g x) := by
  induction l with
  | nil => simp [somaLista]
  | cons a t ih =>
    simp only [List.map_cons, somaLista, rAdd_eq_add]
    rw [← ih]
    ring

theorem somaLista_map_congr {α : Type} (f g : α → Rat) (l : List α)
    (h : ∀ x ∈ l, f x = g x) : somaLista (l.map f) = somaLista (l.map g) := by
  rw [List.map_congr_left h]

/-- Positive part plus negative part of a rational is the rational itself. -/
theorem parte_pos_add_neg (v : Rat) :
    (if 0 < v then v else 0) + (if v < 0 then v else 0) = v := by
  rcases lt_trichotomy 0 v with h | h | h
  · rw [if_pos h, if_neg (by linarith)]; ring
  · rw [if_neg (by rw [← h]; exact lt_irrefl 0), if_neg (by rw [← h]; exact lt_irrefl 0)]
    rw [← h]; ring
  · rw [if_neg (by linarith), if_pos h]; ring

/-! ## Concrete fixtures used by the example parts of the claims -/

/-- A bank row with a unified value column: `Valor = "100,00"`. -/
def linhaValor100 : Row :=
  [("Data", Cell.str "01/09/2025"), ("Lançamento", Cell.str "PIX RECEBIDO"),
   ("Valor", Cell.str "100,00")]

/-- A bank row without `Valor` but with `Debito = "50,00"`, `Credito = "0"`. -/
def linhaDebito50 : Row :=
  [("Data", Cell.str "02/09/2025"), ("Lançamento", Cell.str "PAGAMENTO FORNECEDOR"),
   ("Debito", Cell.str "50,00"), ("Credito", Cell.str "0")]

/-- The movement the bank adapter emits for `linhaValor100`. -/
def movValor100 : Mov :=
  ⟨Cell.str "01/09/2025", Cell.str "PIX RECEBIDO", 100, "Itau"⟩

/-- The movement the bank adapter emits for `linhaDebito50`. -/
def movDebito50 : Mov :=
  ⟨Cell.str "02/09/2025", Cell.str "PAGAMENTO FORNECEDOR", -50, "Itau"⟩

/-- A bank balance-snapshot row (`SALDO ANTERIOR`). -/
def linhaSaldoAnterior : Row :=
  [("Data", Cell.str "01/09/2025"), ("Lançamento", Cell.str "SALDO ANTERIOR"),
   ("Valor", Cell.str "100,00")]

/-- A payment-processor row with `Entradas = "30,00"`, `Saidas = "0"`. -/
def linhaEntrada30 : Row :=
  [("Data", Cell.str "03/09/2025"), ("Tipo", Cell.str "VENDA CREDITO"),
   ("Entradas", Cell.str "30,00"), ("Saidas", Cell.str "0")]

/-- A payment-processor row with `Entradas = "0"`, `Saidas = "20,00"`. -/
def linhaSaida20 : Row :=
  [("Data", Cell.str "04/09/2025"), ("Tipo", Cell.str "TARIFA"),
   ("Entradas", Cell.str "0"), ("Saidas", Cell.str "20,00")]

/-- The movement the processor adapter emits for `linhaEntrada30`. -/
def movEntrada30 : Mov :=
  ⟨Cell.str "03/09/2025", Cell.str "VENDA CREDITO", 30, "PagSeguro"⟩

/-- The movement the processor adapter emits for `linhaSaida20`. -/
def movSaida20 : Mov :=
  ⟨Cell.str "04/09/2025", Cell.str "TARIFA", -20, "PagSeguro"⟩

/-- A transaction whose normalized description contains both `LOJA XYZ`
(a learned-rule pattern) and `CARTAO` (a hardcoded card-bill keyword). -/
def movLojaXyz : Mov := ⟨Cell.none, Cell.str "Pagamento Loja Xyz cartão", -10, "Itau"⟩

/-! ## The claims -/

/-- C3: `parse_numero_br` returns 0.0 for `None`, for the empty string and
for `"-"`; returns 0.0 for float NaN; returns `float(x)` for native
numbers; strips an `R$` marker and surrounding whitespace so
`parse_numero_br("R$ 10,50") == 10.5`; and when the string contains a
comma it removes every `'.'` and converts `','` to `'.'`, so `"1.234,56"`
parses to 1234.56, while a string containing only `'.'` is parsed as-is,
so `"1234.56"` also parses to 1234.56. -/
theorem claim_C3 :
    parse_numero_br Cell.none = some 0 ∧
    parse_numero_br (Cell.str "") = some 0 ∧
    parse_numero_br (Cell.str "-") = some 0 ∧
    parse_numero_br Cell.nan = some 0 ∧
    (∀ n : Int, parse_numero_br (Cell.int n) = some (n : Rat)) ∧
    (∀ q : Rat, parse_numero_br (Cell.num q) = some q) ∧
    parse_numero_br (Cell.str "R$ 10,50") = some (10.5 : Rat) ∧
    parse_numero_br (Cell.str "1.234,56") = some (1234.56 : Rat) ∧
    parse_numero_br (Cell.str "1234.56") = some (1234.56 : Rat) := by
  refine ⟨by decide, by decide, by decide, by decide, fun n => rfl, fun q => rfl, ?_, ?_, ?_⟩
  · rw [show parse_numero_br (Cell.str "R$ 10,50") = some (mkRat 21 2) from by decide]
    rw [Rat.mkRat_eq_div]
    norm_num
  · rw [show parse_numero_br (Cell.str "1.234,56") = some (mkRat 123456 100) from by decide]
    rw [Rat.mkRat_eq_div]
    norm_num
  · rw [show parse_numero_br (Cell.str "1234.56") = some (mkRat 123456 100) from by decide]
    rw [Rat.mkRat_eq_div]
    norm_num

/-- C8: `normalizar_texto` is idempotent (re-normalizing its output changes
nothing, for every cell) and accent-insensitive on the listed Portuguese
characters: it uppercases, folds Ó/Ô/Õ→O, Í→I, Á/À/Ã→A, É/Ê→E, Ú→U, Ç→C,
maps `None` to `""`, and `normalizar_texto("Ação") ==
normalizar_texto("ACAO")`. -/
theorem claim_C8 :
    (∀ c : Cell, normalizar_texto (Cell.str (normalizar_texto c)) = normalizar_texto c) ∧
    normalizar_texto (Cell.str "Ação") = normalizar_texto (Cell.str "ACAO") ∧
    normalizar_texto Cell.none = "" ∧
    normalizar_texto (Cell.str "ÓÔÕÍÁÀÃÉÊÚÇ") = "OOOIAAAEEUC" ∧
    normalizar_texto (Cell.str "abc") = "ABC" := by
  refine ⟨?_, by decide, rfl, by decide, by decide⟩
  intro c
  cases c with
  | none => decide
  | str s => exact normStr_idem s
  | int n => exact normStr_idem (Cell.int n).toStr
  | num q => exact normStr_idem (Cell.num q).toStr
  | nan => exact normStr_idem Cell.nan.toStr

/-- C4: with a non-empty rule table, classification scans the
`(pattern, category)` pairs in insertion order before any hardcoded
heuristic and returns the category of the first pattern occurring in the
normalized description; in particular with the rule
`LOJA XYZ -> Custom Category`, a transaction whose normalized description
contains both `LOJA XYZ` and `CARTAO` is classified `Custom Category`,
not `Fatura Cartão` (which is what the same transaction gets with an empty
table). -/
theorem claim_C4 :
    (∀ (regras : List (String × String)) (mov : Mov) (pat cat : String),
      regras.find? (fun p => containsSubstr (normalizar_texto mov.descricao) p.1)
        = some (pat, cat) →
      classificar_categoria regras mov = cat) ∧
    classificar_categoria [("LOJA XYZ", "Custom Category")] movLojaXyz = "Custom Category" ∧
    classificar_categoria [] movLojaXyz = "Fatura Cartão" := by
  refine ⟨?_, by decide, by decide⟩
  intro regras mov pat cat h
  cases regras with
  | nil => simp at h
  | cons r rs => simp [classificar_categoria, h]

/-- C4 witness: the theorem applied to the concrete one-rule table and the
`LOJA XYZ`/`CARTAO` transaction. -/
theorem claim_C4_witness :
    classificar_categoria [("LOJA XYZ", "Custom Category")] movLojaXyz = "Custom Category" :=
  claim_C4.1 [("LOJA XYZ", "Custom Category")] movLojaXyz "LOJA XYZ" "Custom Category"
    (by decide)

/-- C5: `classificar_categoria` is total (it is a function into `String`);
when no learned rule and no hardcoded keyword rule matches the normalized
description — including a `None` description — the result is
`Vendas / Receitas` for positive amounts, `Fornecedores e Insumos` for
negative ones and `A Classificar` at zero, in both source variants. -/
theorem claim_C5 :
    (∀ (regras : List (String × String)) (mov : Mov),
      regras.find? (fun p => containsSubstr (normalizar_texto mov.descricao) p.1)
          = Option.none →
      heuristicas false (normalizar_texto mov.descricao) = Option.none →
      classificar_categoria regras mov =
        (if 0 < mov.valor then "Vendas / Receitas"
         else if mov.valor < 0 then "Fornecedores e Insumos" else "A Classificar")) ∧
    (∀ mov : Mov,
      heuristicas true (normalizar_texto mov.descricao) = Option.none →
      classificar_categoria_cli mov =
        (if 0 < mov.valor then "Vendas / Receitas"
         else if mov.valor < 0 then "Fornecedores e Insumos" else "A Classificar")) ∧
    classificar_categoria [] ⟨Cell.none, Cell.none, 150, ""⟩ = "Vendas / Receitas" ∧
    classificar_categoria [] ⟨Cell.none, Cell.none, -75, ""⟩ = "Fornecedores e Insumos" ∧
    classificar_categoria [] ⟨Cell.none, Cell.none, 0, ""⟩ = "A Classificar" ∧
    classificar_categoria_cli ⟨Cell.none, Cell.none, 0, ""⟩ = "A Classificar" := by
  refine ⟨?_, ?_, by decide, by decide, by decide, by decide⟩
  · intro regras mov h1 h2
    cases regras with
    | nil => simp [classificar_categoria, h2, categoriaPadrao]
    | cons r rs => simp [classificar_categoria, h1, h2, categoriaPadrao]
  · intro mov h
    simp [classificar_categoria_cli, h, categoriaPadrao]

/-- C5 witness: the default branches reached at concrete transactions with
a `None` description. -/
theorem claim_C5_witness :
    (classificar_categoria [] ⟨Cell.none, Cell.none, 150, ""⟩ =
      (if (0 : Rat) < 150 then "Vendas / Receitas"
       else if (150 : Rat) < 0 then "Fornecedores e Insumos" else "A Classificar")) ∧
    (classificar_categoria_cli ⟨Cell.none, Cell.none, -75, ""⟩ =
      (if (0 : Rat) < -75 then "Vendas / Receitas"
       else if (-75 : Rat) < 0 then "Fornecedores e Insumos" else "A Classificar")) :=
  ⟨claim_C5.1 [] ⟨Cell.none, Cell.none, 150, ""⟩ rfl (by decide),
   claim_C5.2.1 ⟨Cell.none, Cell.none, -75, ""⟩ (by decide)⟩

/-- C1: in the bank adapter, the amount of a row comes from parsing the
unified value column (`Valor`/`VALOR`/`valor`/`Valor (R$)` in order); if
and only if that parse yields exactly 0.0, the debit/credit scan runs and,
when at least one of the two is nonzero, the amount becomes
`credito - debito`.  A row with `Valor = "100,00"` yields one transaction
with amount 100.0 counted in the entries total and not in the exits
total; a row without `Valor` but `Debito = "50,00"`, `Credito = "0"`
yields amount -50.0. -/
theorem claim_C1 :
    (∀ (linha : Row) (v : Rat), parse_numero_br (valorUnificado linha) = some v →
      (v ≠ 0 →
        itauRow linha = some ⟨dataCol linha, extrair_descricao_linha linha, v, "Itau"⟩) ∧
      (v = 0 →
        itauRow linha = (scanDebCredItau linha).map fun dc =>
          ⟨dataCol linha, extrair_descricao_linha linha,
            if dc.1 ≠ 0 ∨ dc.2 ≠ 0 then dc.2 - dc.1 else 0, "Itau"⟩)) ∧
    carregar_extrato_itau [linhaValor100] = some (100, 0, 100, [movValor100]) ∧
    carregar_extrato_itau [linhaDebito50] = some (0, -50, -50, [movDebito50]) := by
  refine ⟨?_, by decide, by decide⟩
  intro linha v hv
  constructor
  · intro hne
    simp [itauRow, hv, hne]
  · intro h0
    subst h0
    cases hscan : scanDebCredItau linha with
    | none => simp [itauRow, hv, hscan]
    | some dc =>
      simp only [itauRow, hv, hscan, Option.map_some, Option.bind_eq_bind,
        Option.some_bind, beq_self_eq_true, if_true, reduceIte]
      by_cases hd : dc.1 = 0 <;> by_cases hc : dc.2 = 0 <;>
        simp [hd, hc, rSub_eq_sub]

/-- C1 witness: the theorem applied to the two concrete rows, with the
unified-value parses discharged by evaluation. -/
theorem claim_C1_witness :
    itauRow linhaValor100 =
      some ⟨dataCol linhaValor100, extrair_descricao_linha linhaValor100, 100, "Itau"⟩ ∧
    itauRow linhaDebito50 = (scanDebCredItau linhaDebito50).map (fun dc =>
      ⟨dataCol linhaDebito50, extrair_descricao_linha linhaDebito50,
        if dc.1 ≠ 0 ∨ dc.2 ≠ 0 then dc.2 - dc.1 else 0, "Itau"⟩) :=
  ⟨(claim_C1.1 linhaValor100 100 (by decide)).1 (by norm_num),
   (claim_C1.1 linhaDebito50 0 (by decide)).2 rfl⟩

/-- C2: in the payment-processor adapter, a row's amount is
`abs(entradas) - abs(saidas)`; the entries total gains `+abs(entradas)`
exactly when `entradas` parses nonzero and the exits total gains
`-abs(saidas)` exactly when `saidas` parses nonzero.  A row with
`Entradas = "30,00"`, `Saidas = "0"` yields amount 30.0 and totals
`(30, 0)`; a row with `Entradas = "0"`, `Saidas = "20,00"` yields amount
-20.0 and totals `(0, -20)` — in both adapter variants. -/
theorem claim_C2 :
    (∀ (linha : Row) (e s : Rat),
      parse_numero_br (entradaCelula linha) = some e →
      parse_numero_br (saidaCelula linha) = some s →
      pagRow linha = some ((if e ≠ 0 then |e| else 0), (if s ≠ 0 then |s| else 0),
        ⟨dataCol linha, extrair_descricao_linha linha, |e| - |s|, "PagSeguro"⟩)) ∧
    carregar_extrato_pagseguro [linhaEntrada30] = some (30, 0, 30, [movEntrada30]) ∧
    carregar_extrato_pagseguro [linhaSaida20] = some (0, -20, -20, [movSaida20]) ∧
    carregar_extrato_pagseguro_upload [linhaEntrada30] = some (30, 0, 30, [movEntrada30]) ∧
    carregar_extrato_pagseguro_upload [linhaSaida20] = some (0, -20, -20, [movSaida20]) := by
  refine ⟨?_, by decide, by decide, by decide, by decide⟩
  intro linha e s he hs
  by_cases hez : e = 0 <;> by_cases hsz : s = 0 <;>
    simp [pagRow, he, hs, hez, hsz, rAbs_eq_abs, rSub_eq_sub, abs_zero]

/-- C2 witness: the theorem applied to the `Entradas = "30,00"` row. -/
theorem claim_C2_witness :
    pagRow linhaEntrada30 = some ((if (30 : Rat) ≠ 0 then |(30 : Rat)| else 0),
      (if (0 : Rat) ≠ 0 then |(0 : Rat)| else 0),
      ⟨dataCol linhaEntrada30, extrair_descricao_linha linhaEntrada30,
        |(30 : Rat)| - |(0 : Rat)|, "PagSeguro"⟩) :=
  claim_C2.1 linhaEntrada30 30 0 (by decide) (by decide)

/-- A bank row whose `Valor` cell holds unparseable text. -/
def linhaABC : Row :=
  [("Data", Cell.str "01/09/2025"), ("Histórico", Cell.str "VENDA"),
   ("Valor", Cell.str "ABC")]

/-- C6 counterexample: on the concrete cell `"ABC"` the parser raises
(`none` in the model) instead of degrading to 0.0, and the bank adapter
given a row with that cell returns no transaction list at all — so the row
does not appear as a zero-value movement and the error does propagate out
of `parse_numero_br` and the adapter. -/
theorem claim_C6_counterexample :
    parse_numero_br (Cell.str "ABC") = Option.none ∧
    carregar_extrato_itau [linhaABC] = Option.none := by decide

/-- C6 (amended): a numeric cell that is `None`, empty, `"-"` or NaN
degrades to 0.0, but a cell whose text cannot be parsed as a number makes
`parse_numero_br` raise a `ValueError` that propagates out of the
adapters: any row list containing such a row makes the adapter abort with
no transaction list, instead of emitting the row as a zero-value
movement. -/
theorem claim_C6_amended_thm :
    parse_numero_br (Cell.str "ABC") = Option.none ∧
    (∀ linha : Row, parse_numero_br (valorUnificado linha) = Option.none →
      itauRow linha = Option.none) ∧
    (∀ linha : Row, parse_numero_br (entradaCelula linha) = Option.none →
      pagRow linha = Option.none) ∧
    (∀ linhas : List Row, (∃ linha ∈ linhas, itauRow linha = Option.none) →
      carregar_extrato_itau linhas = Option.none) ∧
    (∀ linhas : List Row, (∃ linha ∈ linhas, pagRow linha = Option.none) →
      carregar_extrato_pagseguro linhas = Option.none) := by
  refine ⟨by decide, ?_, ?_, ?_, ?_⟩
  · intro linha h
    simp [itauRow, h]
  · intro linha h
    simp [pagRow, h]
  · intro linhas h
    simp [carregar_extrato_itau, mapO_eq_none_of_mem itauRow linhas h]
  · intro linhas h
    simp [carregar_extrato_pagseguro, mapO_eq_none_of_mem pagRow linhas h]

/-- C6 witness: the amended theorem applied to the concrete one-row list
holding the `"ABC"` cell. -/
theorem claim_C6_witness : carregar_extrato_itau [linhaABC] = Option.none :=
  claim_C6_amended_thm.2.2.2.1 [linhaABC]
    ⟨linhaABC, List.mem_singleton.mpr rfl, by decide⟩

/-- C7 counterexample: a concrete row whose normalized description contains
the marker `SALDO ANTERIOR` is NOT skipped by the CLI bank adapter
`carregar_extrato_itau`: it emits one transaction for it and counts its
100.0 in the entries total, contradicting the claim that both bank-adapter
variants skip such rows. -/
theorem claim_C7_counterexample :
    marcadorSaldoItau (normalizar_texto (extrair_descricao_linha linhaSaldoAnterior)) = true ∧
    carregar_extrato_itau [linhaSaldoAnterior] =
      some (100, 0, 100,
        [⟨Cell.str "01/09/2025", Cell.str "SALDO ANTERIOR", 100, "Itau"⟩]) := by decide

/-- C7 (amended): only the upload variant `carregar_extrato_itau_upload`
skips rows whose normalized description contains a balance-snapshot
marker — such a row produces no transaction and contributes nothing to
either total (dropping it from the front of the input leaves the result
unchanged); the CLI variant `carregar_extrato_itau` has no such filter and
processes those rows like any other. -/
theorem claim_C7_amended_thm :
    ∀ (linha : Row) (rest : List Row),
      marcadorSaldoItau (normalizar_texto (extrair_descricao_linha linha)) = true →
      itauUploadRow linha = some Option.none ∧
      carregar_extrato_itau_upload (linha :: rest) = carregar_extrato_itau_upload rest := by
  intro linha rest h
  have hrow : itauUploadRow linha = some Option.none := by
    simp [itauUploadRow, h]
  refine ⟨hrow, ?_⟩
  rw [carregar_extrato_itau_upload, carregar_extrato_itau_upload, mapO, hrow]
  cases hmt : mapO itauUploadRow rest with
  | none => rfl
  | some rows => simp [List.reduceOption]

/-- C7 witness: the amended theorem applied to the concrete
`SALDO ANTERIOR` row in front of the empty list. -/
theorem claim_C7_witness :
    itauUploadRow linhaSaldoAnterior = some Option.none ∧
    carregar_extrato_itau_upload [linhaSaldoAnterior] = carregar_extrato_itau_upload [] :=
  claim_C7_amended_thm linhaSaldoAnterior [] (by decide)

/-- The totals the bank-adapter variants build from their emitted movement
list: entries are nonnegative, exits nonpositive, and their sum is the sum
of the movement amounts. -/
theorem totais_movs (movs : List Mov) :
    0 ≤ entradasDe movs ∧ saidasDe movs ≤ 0 ∧
      rAdd (entradasDe movs) (saidasDe movs) = (movs.map Mov.valor).sum := by
  refine ⟨somaLista_nonneg _ ?_, somaLista_nonpos _ ?_, ?_⟩
  · intro x hx
    obtain ⟨m, _, rfl⟩ := List.mem_map.mp hx
    split
    · exact le_of_lt (by assumption)
    · exact le_refl 0
  · intro x hx
    obtain ⟨m, _, rfl⟩ := List.mem_map.mp hx
    split
    · exact le_of_lt (by assumption)
    · exact le_refl 0
  · rw [entradasDe, saidasDe, rAdd_eq_add, somaLista_map_add]
    rw [somaLista_map_congr _ Mov.valor movs (fun m _ => parte_pos_add_neg m.valor)]
    exact somaLista_eq_sum _

/-- Shape of a successful `pagRow`: both magnitude contributions are
nonnegative and the movement's amount is their difference. -/
theorem pagRow_shape (linha : Row) (t : Rat × Rat × Mov) (h : pagRow linha = some t) :
    0 ≤ t.1 ∧ 0 ≤ t.2.1 ∧ t.2.2.valor = t.1 - t.2.1 := by
  rw [pagRow] at h
  cases he : parse_numero_br (entradaCelula linha) with
  | none => rw [he] at h; cases h
  | some e =>
    rw [he] at h
    cases hs : parse_numero_br (saidaCelula linha) with
    | none => rw [hs] at h; simp at h
    | some s =>
      rw [hs] at h
      simp only [Option.bind_eq_bind, Option.some_bind, Option.pure_def,
        Option.some.injEq] at h
      subst h
      refine ⟨?_, ?_, ?_⟩
      · show 0 ≤ if (e != 0) = true then rAbs e else 0
        split
        · rw [rAbs_eq_abs]; exact abs_nonneg e
        · exact le_refl (0 : Rat)
      · show 0 ≤ if (s != 0) = true then rAbs s else 0
        split
        · rw [rAbs_eq_abs]; exact abs_nonneg s
        · exact le_refl (0 : Rat)
      · show rSub (if (e != 0) = true then rAbs e else 0)
            (if (s != 0) = true then rAbs s else 0) = _
        rw [rSub_eq_sub]

/-- Shape of a successful, non-skipped `pagUploadRow`: as `pagRow`. -/
theorem pagUploadRow_shape (linha : Row) (t : Rat × Rat × Mov)
    (h : pagUploadRow linha = some (some t)) :
    0 ≤ t.1 ∧ 0 ≤ t.2.1 ∧ t.2.2.valor = t.1 - t.2.1 := by
  rw [pagUploadRow] at h
  split at h
  · simp at h
  · cases he : parse_numero_br (entradaCelula linha) with
    | none => rw [he] at h; cases h
    | some e =>
      rw [he] at h
      cases hs : parse_numero_br (saidaCelula linha) with
      | none => rw [hs] at h; simp at h
      | some s =>
        rw [hs] at h
        simp only [Option.bind_eq_bind, Option.some_bind, Option.pure_def,
          Option.some.injEq] at h
        subst h
        refine ⟨?_, ?_, ?_⟩
        · show 0 ≤ if (e != 0) = true then rAbs e else 0
          split
          · rw [rAbs_eq_abs]; exact abs_nonneg e
          · exact le_refl (0 : Rat)
        · show 0 ≤ if (s != 0) = true then rAbs s else 0
          split
          · rw [rAbs_eq_abs]; exact abs_nonneg s
          · exact le_refl (0 : Rat)
        · show rSub (if (e != 0) = true then rAbs e else 0)
              (if (s != 0) = true then rAbs s else 0) = _
          rw [rSub_eq_sub]

/-- The totals the processor-adapter variants build from their per-row
triples, given the shape facts. -/
theorem totais_pag (rows : List (Rat × Rat × Mov))
    (hshape : ∀ t ∈ rows, 0 ≤ t.1 ∧ 0 ≤ t.2.1 ∧ t.2.2.valor = t.1 - t.2.1) :
    0 ≤ somaLista (rows.map fun t => t.1) ∧
    somaLista (rows.map fun t => rNeg t.2.1) ≤ 0 ∧
    rAdd (somaLista (rows.map fun t => t.1)) (somaLista (rows.map fun t => rNeg t.2.1))
      = ((rows.map fun t => t.2.2).map Mov.valor).sum := by
  refine ⟨somaLista_nonneg _ ?_, somaLista_nonpos _ ?_, ?_⟩
  · intro x hx
    obtain ⟨t, ht, rfl⟩ := List.mem_map.mp hx
    exact (hshape t ht).1
  · intro x hx
    obtain ⟨t, ht, rfl⟩ := List.mem_map.mp hx
    rw [rNeg_eq_neg]
    exact neg_nonpos.mpr (hshape t ht).2.1
  · rw [rAdd_eq_add]
    rw [somaLista_map_congr (fun t => rNeg t.2.1) (fun t => -t.2.1) rows
      (fun t _ => rNeg_eq_neg t.2.1)]
    rw [somaLista_map_add]
    rw [List.map_map]
    rw [somaLista_map_congr _ (fun t => (Mov.valor ∘ fun t => t.2.2) t) rows
      (fun t ht => by
        have := (hshape t ht).2.2
        simp only [Function.comp_apply]
        rw [this]
        ring)]
    exact somaLista_eq_sum _

/-- C9 (implicit adapter invariant): for every input row list and each of
the four adapters (bank/processor, CLI/upload variant), when the adapter
returns, the entries total is ≥ 0, the exits total is ≤ 0, the result
equals entries + exits, and the result equals the sum of the amounts of
the emitted transactions (skipped rows contributing to neither). -/
theorem claim_C9 :
    (∀ (linhas : List Row) (ent sai res : Rat) (movs : List Mov),
      carregar_extrato_itau linhas = some (ent, sai, res, movs) →
      0 ≤ ent ∧ sai ≤ 0 ∧ res = ent + sai ∧ res = (movs.map Mov.valor).sum) ∧
    (∀ (linhas : List Row) (ent sai res : Rat) (movs : List Mov),
      carregar_extrato_itau_upload linhas = some (ent, sai, res, movs) →
      0 ≤ ent ∧ sai ≤ 0 ∧ res = ent + sai ∧ res = (movs.map Mov.valor).sum) ∧
    (∀ (linhas : List Row) (ent sai res : Rat) (movs : List Mov),
      carregar_extrato_pagseguro linhas = some (ent, sai, res, movs) →
      0 ≤ ent ∧ sai ≤ 0 ∧ res = ent + sai ∧ res = (movs.map Mov.valor).sum) ∧
    (∀ (linhas : List Row) (ent sai res : Rat) (movs : List Mov),
      carregar_extrato_pagseguro_upload linhas = some (ent, sai, res, movs) →
      0 ≤ ent ∧ sai ≤ 0 ∧ res = ent + sai ∧ res = (movs.map Mov.valor).sum) := by
  refine ⟨?_, ?_, ?_, ?_⟩
  · intro linhas ent sai res movs h
    rw [carregar_extrato_itau] at h
    cases hm : mapO itauRow linhas with
    | none => rw [hm] at h; cases h
    | some ms =>
      rw [hm] at h
      simp only [Option.bind_eq_bind, Option.some_bind, Option.pure_def,
        Option.some.injEq, Prod.mk.injEq] at h
      obtain ⟨rfl, rfl, rfl, rfl⟩ := h
      obtain ⟨h1, h2, h3⟩ := totais_movs ms
      exact ⟨h1, h2, rAdd_eq_add _ _ ▸ rfl, h3⟩
  · intro linhas ent sai res movs h
    rw [carregar_extrato_itau_upload] at h
    cases hm : mapO itauUploadRow linhas with
    | none => rw [hm] at h; cases h
    | some rows =>
      rw [hm] at h
      simp only [Option.bind_eq_bind, Option.some_bind, Option.pure_def,
        Option.some.injEq, Prod.mk.injEq] at h
      obtain ⟨rfl, rfl, rfl, rfl⟩ := h
      obtain ⟨h1, h2, h3⟩ := totais_movs rows.reduceOption
      exact ⟨h1, h2, rAdd_eq_add _ _ ▸ rfl, h3⟩
  · intro linhas ent sai res movs h
    rw [carregar_extrato_pagseguro] at h
    cases hm : mapO pagRow linhas with
    | none => rw [hm] at h; cases h
    | some rows =>
      rw [hm] at h
      simp only [Option.bind_eq_bind, Option.some_bind, Option.pure_def,
        Option.some.injEq, Prod.mk.injEq] at h
      obtain ⟨rfl, rfl, rfl, rfl⟩ := h
      have hshape : ∀ t ∈ rows, 0 ≤ t.1 ∧ 0 ≤ t.2.1 ∧ t.2.2.valor = t.1 - t.2.1 := by
        intro t ht
        obtain ⟨linha, _, hrow⟩ := mapO_mem pagRow linhas rows hm t ht
        exact pagRow_shape linha t hrow
      obtain ⟨h1, h2, h3⟩ := totais_pag rows hshape
      exact ⟨h1, h2, rAdd_eq_add _ _ ▸ rfl, h3⟩
  · intro linhas ent sai res movs h
    rw [carregar_extrato_pagseguro_upload] at h
    cases hm : mapO pagUploadRow linhas with
    | none => rw [hm] at h; cases h
    | some rowsO =>
      rw [hm] at h
      simp only [Option.bind_eq_bind, Option.some_bind, Option.pure_def,
        Option.some.injEq, Prod.mk.injEq] at h
      obtain ⟨rfl, rfl, rfl, rfl⟩ := h
      have hshape : ∀ t ∈ rowsO.reduceOption,
          0 ≤ t.1 ∧ 0 ≤ t.2.1 ∧ t.2.2.valor = t.1 - t.2.1 := by
        intro t ht
        rw [List.reduceOption, List.mem_filterMap] at ht
        obtain ⟨o, ho, hot⟩ := ht
        simp only [id_eq] at hot
        subst hot
        obtain ⟨linha, _, hrow⟩ := mapO_mem pagUploadRow linhas rowsO hm _ ho
        exact pagUploadRow_shape linha t hrow
      obtain ⟨h1, h2, h3⟩ := totais_pag rowsO.reduceOption hshape
      exact ⟨h1, h2, rAdd_eq_add _ _ ▸ rfl, h3⟩

/-- C9 witness: the four conjuncts applied to concrete one-row inputs
(the upload bank adapter at a skipped balance row, the others at ordinary
rows), all adapter hypotheses discharged by evaluation. -/
theorem claim_C9_witness :
    ((0 : Rat) ≤ 100 ∧ (0 : Rat) ≤ 0 ∧ (100 : Rat) = 100 + 0 ∧
      (100 : Rat) = ([movValor100].map Mov.valor).sum) ∧
    ((0 : Rat) ≤ 0 ∧ (0 : Rat) ≤ 0 ∧ (0 : Rat) = 0 + 0 ∧
      (0 : Rat) = (([] : List Mov).map Mov.valor).sum) ∧
    ((0 : Rat) ≤ 30 ∧ (0 : Rat) ≤ 0 ∧ (30 : Rat) = 30 + 0 ∧
      (30 : Rat) = ([movEntrada30].map Mov.valor).sum) ∧
    ((0 : Rat) ≤ 0 ∧ (-20 : Rat) ≤ 0 ∧ (-20 : Rat) = 0 + -20 ∧
      (-20 : Rat) = ([movSaida20].map Mov.valor).sum) :=
  ⟨claim_C9.1 [linhaValor100] 100 0 100 [movValor100] (by decide),
   claim_C9.2.1 [linhaSaldoAnterior] 0 0 0 [] (by decide),
   claim_C9.2.2.1 [linhaEntrada30] 30 0 30 [movEntrada30] (by decide),
   claim_C9.2.2.2 [linhaSaida20] 0 (-20) (-20) [movSaida20] (by decide)⟩

/-- A row with no `descricao` field, no history/description-like column,
and a non-empty cell under `Valor (R$)`. -/
def linhaValorRS (vs : String) : Row :=
  [("Data", Cell.str "01/09/2025"), ("Valor (R$)", Cell.str vs)]

/-- C10 (implicit edge case of the description synthesizer): the Pass-2
ignore list is a fixed 16-entry list matched by exact equality of the
normalized trimmed column name, not by substring; `VALOR (R$)` (the
normalization of `Valor (R$)`) is not in it while `VALOR` is; hence for a
row with no `descricao` field and no `HIST`/`DESCR` column, a non-empty
cell under `Valor (R$)` leaks into the synthesized description instead of
the function returning `None`. -/
theorem claim_C10 :
    candidatos_ignorados.length = 16 ∧
    candidatos_ignorados.contains "VALOR (R$)" = false ∧
    candidatos_ignorados.contains "VALOR" = true ∧
    (∀ vs : String, pyStrip vs ≠ "" →
      extrair_descricao_linha (linhaValorRS vs) = Cell.str (pyStrip vs)) := by
  refine ⟨by decide, by decide, by decide, ?_⟩
  intro vs h
  have hdata : normStr (pyStrip "Data") = "DATA" := by decide
  have hvrs : normStr (pyStrip "Valor (R$)") = "VALOR (R$)" := by decide
  have hc1 : containsSubstr "VALOR (R$)" "HIST" = false := by decide
  have hc2 : containsSubstr "VALOR (R$)" "DESCR" = false := by decide
  have hc3 : containsSubstr "DATA" "HIST" = false := by decide
  have hc4 : containsSubstr "DATA" "DESCR" = false := by decide
  have hp : pyStrip "01/09/2025" = "01/09/2025" := by decide
  simp [extrair_descricao_linha, linhaValorRS, passo1, passo2, juntar,
    hdata, hvrs, hc1, hc2, hc3, hc4, hp, h, Cell.toStr, candidatos_ignorados]

/-- C10 witness: the leak at the concrete cell text `"123,45"`. -/
theorem claim_C10_witness :
    extrair_descricao_linha (linhaValorRS "123,45") = Cell.str (pyStrip "123,45") :=
  claim_C10.2.2.2 "123,45" (by decide)

end Tempero
